import Mathlib

/-!
Verification of the C-preprocessor behaviour of
`src/ios/GreenMobilityPass/GreenMobilityPass-Bridging-Header.h`.

The header consists of an include guard
(`#ifndef GreenMobilityPass_Bridging_Header_h` / `#define` / `#endif`)
wrapping five `#` - `import` directives for the React headers
RCTBridgeModule.h, RCTEventEmitter.h, RCTViewManager.h, RCTUtils.h and
RCTLog.h.  We embed the preprocessor state (defined macros and the set of
headers already pulled in) and an interpreter for the lines of the file,
and prove the inclusion-idempotence and visibility properties of the
header.
-/

/-- One line of the header source, as classified by the C preprocessor.
`declaration` stands for any line carrying a C declaration, definition or
other token sequence of the file's own; the bridging header contains none,
which is itself one of the verified properties. -/
inductive SrcLine where
  | comment (text : String)
  | blank
  | guardOpen (m : String)
  | guardDefine (m : String)
  | importLine (path : String)
  | guardClose
  | declaration (text : String)
  deriving DecidableEq, Repr

/-- True exactly on `#` - `import` lines. -/
def SrcLine.isImport : SrcLine → Bool
  | .importLine _ => true
  | _ => false

/-- True exactly on the include-guard boilerplate lines
(`#ifndef`, the guard `#define`, `#endif`). -/
def SrcLine.isGuardBoilerplate : SrcLine → Bool
  | .guardOpen _ => true
  | .guardDefine _ => true
  | .guardClose => true
  | _ => false

/-- True on comment and blank lines. -/
def SrcLine.isCommentOrBlank : SrcLine → Bool
  | .comment _ => true
  | .blank => true
  | _ => false

/-- The guard macro name used by the header (source lines 8, 9 and 17). -/
def bridgingHeaderGuard : String := "GreenMobilityPass_Bridging_Header_h"

/-- The five header paths imported by the body (source lines 11-15). -/
def bridgingHeaderImports : List String :=
  [ "React/RCTBridgeModule.h"
  , "React/RCTEventEmitter.h"
  , "React/RCTViewManager.h"
  , "React/RCTUtils.h"
  , "React/RCTLog.h" ]

/-- Line-by-line transcription of GreenMobilityPass-Bridging-Header.h. -/
def bridgingHeaderFile : List SrcLine :=
  [ .comment ""
  , .comment "  GreenMobilityPass-Bridging-Header.h"
  , .comment "  GreenMobilityPass"
  , .comment ""
  , .comment "  Bridging header for Swift/Objective-C interoperability"
  , .comment ""
  , .blank
  , .guardOpen "GreenMobilityPass_Bridging_Header_h"
  , .guardDefine "GreenMobilityPass_Bridging_Header_h"
  , .blank
  , .importLine "React/RCTBridgeModule.h"
  , .importLine "React/RCTEventEmitter.h"
  , .importLine "React/RCTViewManager.h"
  , .importLine "React/RCTUtils.h"
  , .importLine "React/RCTLog.h"
  , .blank
  , .guardClose ]

/-- Preprocessor state of a translation unit, as far as this header can
observe or affect it: the defined macros (name paired with replacement
text) and the headers already imported (an `#` - `import` directive, unlike
`#include`, pulls a file in at most once, so we record each path once). -/
structure PPState where
  defines : List (String × String)
  imports : List String
  deriving DecidableEq, Repr

/-- Whether macro `m` is currently defined. -/
def PPState.isDefined (s : PPState) (m : String) : Bool :=
  s.defines.any (fun p => p.1 == m)

/-- Effect of a `#define m body` directive: record the macro. -/
def ppDefine (s : PPState) (m body : String) : PPState :=
  { s with defines := s.defines ++ [(m, body)] }

/-- Effect of an `#` - `import` directive: pull the header in unless this
translation unit has imported it already. -/
def ppImport (s : PPState) (p : String) : PPState :=
  if s.imports.contains p then s
  else { s with imports := s.imports ++ [p] }

/-- Interpreter for one source line.  The Bool component is the skip flag:
true while the preprocessor is inside a false conditional.  The header has
a single non-nested `#ifndef` / `#endif` pair, which this flat flag models
exactly. -/
def procLine : (PPState × Bool) → SrcLine → (PPState × Bool)
  | (s, _), .guardOpen m => (s, s.isDefined m)
  | (s, _), .guardClose => (s, false)
  | (s, skip), .comment _ => (s, skip)
  | (s, skip), .blank => (s, skip)
  | (s, skip), .guardDefine m => if skip then (s, skip) else (ppDefine s m "", skip)
  | (s, skip), .importLine p => if skip then (s, skip) else (ppImport s p, skip)
  | (s, skip), .declaration _ => (s, skip)

/-- Run the preprocessor over a whole file starting from state `s`. -/
def processFile (s : PPState) (file : List SrcLine) : PPState :=
  (file.foldl procLine (s, false)).1

/-- One inclusion of the bridging header in a translation unit whose
preprocessor state is `s`. -/
def includeBridgingHeader (s : PPState) : PPState :=
  processFile s bridgingHeaderFile

/-- The guarded body of the header run unconditionally: define the guard
macro (with empty replacement), then import the five React headers. -/
def processBody (s : PPState) : PPState :=
  bridgingHeaderImports.foldl ppImport (ppDefine s bridgingHeaderGuard "")

/-- `n` successive inclusions of the header. -/
def includeN (s : PPState) : Nat → PPState
  | 0 => s
  | n + 1 => includeBridgingHeader (includeN s n)

/-- Whether an inclusion starting from state `s` processes the guarded
body: by line 8 of the source this happens exactly when the guard macro
is not yet defined. -/
def bodyProcessed (s : PPState) : Bool :=
  ! s.isDefined bridgingHeaderGuard

/-- How many of the first `n` successive inclusions process the guarded
body. -/
def includeNCount (s : PPState) : Nat → Nat
  | 0 => 0
  | n + 1 => includeNCount s n + (if bodyProcessed (includeN s n) then 1 else 0)

/-- A translation unit that has defined and imported nothing yet. -/
def initState : PPState := { defines := [], imports := [] }

/-- A translation unit in which the guard macro is already defined but
nothing has been imported. -/
def guardedState : PPState :=
  { defines := [("GreenMobilityPass_Bridging_Header_h", "")], imports := [] }

/-- The invariant of claim C9: if the guard macro is defined then all five
React headers have been imported. -/
def guardInv (s : PPState) : Prop :=
  s.isDefined bridgingHeaderGuard = true →
    ∀ p ∈ bridgingHeaderImports, p ∈ s.imports

/-! ## Helper lemmas -/

/-- An import never touches the macro table. -/
theorem ppImport_defines (t : PPState) (p : String) :
    (ppImport t p).defines = t.defines := by
  unfold ppImport
  split <;> rfl

/-- A fold of imports never touches the macro table. -/
theorem foldl_ppImport_defines (l : List String) (t : PPState) :
    (l.foldl ppImport t).defines = t.defines := by
  induction l generalizing t with
  | nil => rfl
  | cons a l ih => rw [List.foldl_cons, ih, ppImport_defines]

/-- Membership in the imports after a single import directive. -/
theorem ppImport_mem (t : PPState) (p x : String) :
    x ∈ (ppImport t p).imports ↔ x ∈ t.imports ∨ x = p := by
  unfold ppImport
  split
  case isTrue h =>
    replace h : p ∈ t.imports := by simpa using h
    constructor
    · exact Or.inl
    · rintro (hx | rfl)
      · exact hx
      · exact h
  case isFalse h =>
    simp [List.mem_append]

/-- Membership in the imports after a fold of import directives. -/
theorem foldl_ppImport_mem (l : List String) (t : PPState) (x : String) :
    x ∈ (l.foldl ppImport t).imports ↔ x ∈ t.imports ∨ x ∈ l := by
  induction l generalizing t with
  | nil => simp
  | cons a l ih =>
    rw [List.foldl_cons, ih, ppImport_mem]
    simp only [List.mem_cons]
    tauto

/-- A single import directive preserves freedom from duplicates. -/
theorem ppImport_nodup (t : PPState) (p : String) (h : t.imports.Nodup) :
    (ppImport t p).imports.Nodup := by
  unfold ppImport
  split
  case isTrue _ => exact h
  case isFalse hc =>
    replace hc : p ∉ t.imports := by simpa using hc
    simpa [List.nodup_append] using ⟨h, hc⟩

/-- A fold of import directives preserves freedom from duplicates. -/
theorem foldl_ppImport_nodup (l : List String) (t : PPState)
    (h : t.imports.Nodup) : (l.foldl ppImport t).imports.Nodup := by
  induction l generalizing t with
  | nil => exact h
  | cons a l ih => exact ih _ (ppImport_nodup t a h)

/-- Characterisation of one inclusion: the interpreter run over the
transcribed file behaves as the include guard dictates — a no-op when the
guard macro is defined, the guarded body otherwise. -/
theorem includeBridgingHeader_eq (s : PPState) :
    includeBridgingHeader s =
      if s.isDefined bridgingHeaderGuard then s else processBody s := by
  by_cases h : s.isDefined bridgingHeaderGuard = true
  · simp only [includeBridgingHeader, processFile, bridgingHeaderFile,
      List.foldl_cons, List.foldl_nil, procLine, bridgingHeaderGuard] at h ⊢
    simp [h]
  · replace h : s.isDefined bridgingHeaderGuard = false := by
      simpa using h
    simp only [includeBridgingHeader, processFile, bridgingHeaderFile,
      List.foldl_cons, List.foldl_nil, procLine, processBody,
      bridgingHeaderImports, bridgingHeaderGuard] at h ⊢
    simp [h]

/-- After any inclusion the guard macro is defined. -/
theorem include_guard_defined (s : PPState) :
    (includeBridgingHeader s).isDefined bridgingHeaderGuard = true := by
  rw [includeBridgingHeader_eq]
  split
  case isTrue h => exact h
  case isFalse h =>
    unfold PPState.isDefined processBody
    rw [foldl_ppImport_defines]
    simp [ppDefine]

/-- A second inclusion is the identity. -/
theorem include_idem (s : PPState) :
    includeBridgingHeader (includeBridgingHeader s) = includeBridgingHeader s := by
  rw [includeBridgingHeader_eq (includeBridgingHeader s), include_guard_defined]
  simp

/-- Imports visible after running the guarded body. -/
theorem processBody_imports_mem (s : PPState) (x : String) :
    x ∈ (processBody s).imports ↔ x ∈ s.imports ∨ x ∈ bridgingHeaderImports := by
  unfold processBody
  rw [foldl_ppImport_mem]
  rfl

/-- Macro table after running the guarded body. -/
theorem processBody_defines (s : PPState) :
    (processBody s).defines = s.defines ++ [(bridgingHeaderGuard, "")] := by
  unfold processBody
  rw [foldl_ppImport_defines]
  rfl

/-! ## Claim theorems -/

/-- C1: Idempotent inclusion — in any translation unit whose imports are
duplicate-free (so that including the header once succeeds without a
duplicate-declaration error), including the bridging header twice in
sequence yields exactly the state of including it once, and the visible
imports stay duplicate-free, so no duplicate-declaration error arises. -/
theorem c1_include_twice_idempotent (s : PPState) (hnd : s.imports.Nodup) :
    includeBridgingHeader (includeBridgingHeader s) = includeBridgingHeader s ∧
    (includeBridgingHeader s).imports.Nodup := by
  refine ⟨include_idem s, ?_⟩
  rw [includeBridgingHeader_eq]
  split
  case isTrue _ => exact hnd
  case isFalse _ => exact foldl_ppImport_nodup _ _ hnd

/-- Witness for C1 at the fresh translation unit. -/
theorem c1_witness :
    initState.imports.Nodup ∧
    (includeBridgingHeader (includeBridgingHeader initState) =
        includeBridgingHeader initState ∧
      (includeBridgingHeader initState).imports.Nodup) :=
  ⟨by decide, c1_include_twice_idempotent initState (by decide)⟩

/-- C2: After a single inclusion with the guard macro not previously
defined, the symbol families made visible are exactly the five React
header families RCTBridgeModule, RCTEventEmitter, RCTViewManager,
RCTUtils and RCTLog — no more and no fewer. -/
theorem c2_single_inclusion_visible (s : PPState)
    (h : s.isDefined bridgingHeaderGuard = false) :
    bridgingHeaderImports =
      [ "React/RCTBridgeModule.h", "React/RCTEventEmitter.h",
        "React/RCTViewManager.h", "React/RCTUtils.h", "React/RCTLog.h" ] ∧
    ∀ f : String,
      f ∈ (includeBridgingHeader s).imports ↔
        f ∈ s.imports ∨ f ∈ bridgingHeaderImports := by
  refine ⟨rfl, fun f => ?_⟩
  rw [includeBridgingHeader_eq, if_neg (by simp [h]), processBody_imports_mem]

/-- Witness for C2 at the fresh translation unit. -/
theorem c2_witness :
    initState.isDefined bridgingHeaderGuard = false ∧
    ("React/RCTLog.h" ∈ (includeBridgingHeader initState).imports ↔
      "React/RCTLog.h" ∈ initState.imports ∨
        "React/RCTLog.h" ∈ bridgingHeaderImports) :=
  ⟨by decide, (c2_single_inclusion_visible initState (by decide)).2 "React/RCTLog.h"⟩

/-- C3 counterexample: the header does not contain four import directives,
nor does an inclusion into a fresh translation unit make four symbol
families visible — both counts are five. -/
theorem c3_counterexample :
    ¬ ((bridgingHeaderFile.filter SrcLine.isImport).length = 4 ∧
       (includeBridgingHeader initState).imports.length = 4) := by
  decide

/-- C3 (amended): the header contains exactly five import directives, and
exactly five symbol families are made available across the
interoperability boundary by including it in a fresh translation unit. -/
theorem c3_import_count_five :
    (bridgingHeaderFile.filter SrcLine.isImport).length = 5 ∧
    (includeBridgingHeader initState).imports.length = 5 := by
  decide

/-- C4: Repeat inclusion is not an error condition — for every translation
unit, the second and every later inclusion is a silent no-op: `n`
inclusions leave exactly the state of one inclusion, for every n ≥ 1. -/
theorem c4_repeat_include_noop (s : PPState) (n : Nat) (h : 1 ≤ n) :
    includeN s n = includeN s 1 := by
  induction n with
  | zero => exact absurd h (by decide)
  | succ k ih =>
    cases k with
    | zero => rfl
    | succ j =>
      show includeBridgingHeader (includeN s (j + 1)) = includeN s 1
      rw [ih (Nat.succ_le_succ (Nat.zero_le j))]
      exact include_idem s

/-- Witness for C4: three inclusions equal one inclusion. -/
theorem c4_witness : 1 ≤ 3 ∧ includeN initState 3 = includeN initState 1 :=
  ⟨by decide, c4_repeat_include_noop initState 3 (by decide)⟩

/-- C5: At-most-once processing — however many successive inclusions a
translation unit performs, the guarded body (the import directives) is
processed at most once. -/
theorem c5_body_at_most_once (s : PPState) (n : Nat) :
    includeNCount s n ≤ 1 := by
  induction n with
  | zero => exact Nat.zero_le 1
  | succ k ih =>
    cases k with
    | zero =>
      show 0 + (if bodyProcessed s then 1 else 0) ≤ 1
      split <;> decide
    | succ j =>
      show includeNCount s (j + 1) +
          (if bodyProcessed (includeBridgingHeader (includeN s j)) then 1 else 0) ≤ 1
      have hb : bodyProcessed (includeBridgingHeader (includeN s j)) = false := by
        unfold bodyProcessed
        rw [include_guard_defined]
        rfl
      rw [hb]
      simpa using ih

/-- C6: Apart from include-guard boilerplate, comments and blank lines,
the entire content of the file is import directives — the lines that are
neither comment, blank nor guard boilerplate are exactly the five import
lines, and no line of the file is a declaration of its own. -/
theorem c6_only_imports :
    bridgingHeaderFile.filter
        (fun l => !(l.isCommentOrBlank || l.isGuardBoilerplate)) =
      bridgingHeaderImports.map SrcLine.importLine ∧
    (bridgingHeaderFile.all fun l =>
      l.isCommentOrBlank || l.isGuardBoilerplate || l.isImport) = true := by
  decide

/-- C7: If the guard macro is already defined before the first inclusion,
the body is skipped even then: the inclusion changes nothing, so no
symbols become visible at all. -/
theorem c7_predefined_guard_skips (s : PPState)
    (h : s.isDefined bridgingHeaderGuard = true) :
    includeBridgingHeader s = s ∧ bodyProcessed s = false := by
  constructor
  · rw [includeBridgingHeader_eq]
    simp [h]
  · unfold bodyProcessed
    rw [h]
    rfl

/-- Witness for C7: a unit with the guard predefined and nothing imported
stays empty of imports. -/
theorem c7_witness :
    guardedState.isDefined bridgingHeaderGuard = true ∧
    (includeBridgingHeader guardedState = guardedState ∧
      bodyProcessed guardedState = false) :=
  ⟨by decide, c7_predefined_guard_skips guardedState (by decide)⟩

/-- C8: Frame property — when the guard macro is not yet defined,
processing the guarded body adds exactly one new macro, the guard with
empty replacement text, to the macro table, and changes the imports only
by what the five imported React headers introduce. -/
theorem c8_body_frame (s : PPState)
    (_h : s.isDefined bridgingHeaderGuard = false) :
    (processBody s).defines = s.defines ++ [(bridgingHeaderGuard, "")] ∧
    ∀ x : String,
      x ∈ (processBody s).imports ↔ x ∈ s.imports ∨ x ∈ bridgingHeaderImports :=
  ⟨processBody_defines s, processBody_imports_mem s⟩

/-- Witness for C8 at the fresh translation unit. -/
theorem c8_witness :
    initState.isDefined bridgingHeaderGuard = false ∧
    ((processBody initState).defines =
        initState.defines ++ [(bridgingHeaderGuard, "")] ∧
      ∀ x : String,
        x ∈ (processBody initState).imports ↔
          x ∈ initState.imports ∨ x ∈ bridgingHeaderImports) :=
  ⟨by decide, c8_body_frame initState (by decide)⟩

/-- C9: Guard-macro invariant — an inclusion never undefines any macro
(whatever is defined stays defined), and the predicate "guard defined
implies all five symbol families already imported" is preserved by every
further inclusion. -/
theorem c9_guard_invariant (s : PPState) :
    (∀ m : String, s.isDefined m = true →
      (includeBridgingHeader s).isDefined m = true) ∧
    (guardInv s → guardInv (includeBridgingHeader s)) := by
  constructor
  · intro m hm
    rw [includeBridgingHeader_eq]
    split
    case isTrue _ => exact hm
    case isFalse _ =>
      unfold PPState.isDefined at hm ⊢
      rw [processBody_defines, List.any_append]
      simp [hm]
  · intro hinv _ p hp
    rw [includeBridgingHeader_eq]
    split
    case isTrue hdef => exact hinv hdef p hp
    case isFalse _ =>
      rw [processBody_imports_mem]
      exact Or.inr hp

/-- Witness for C9: in a unit with the guard predefined, the guard stays
defined across a further inclusion. -/
theorem c9_witness :
    guardedState.isDefined bridgingHeaderGuard = true ∧
    (includeBridgingHeader guardedState).isDefined bridgingHeaderGuard = true :=
  ⟨by decide, (c9_guard_invariant guardedState).1 bridgingHeaderGuard (by decide)⟩
